import Mathlib

/-!
Verification of the generation-orchestration and payment-reconciliation core
of the service: a shallow embedding of `app/services/kie.py`,
`app/routes/generate.py`, `app/routes/payments.py` and `app/models.py`,
with theorems about the embedded functions.
-/

namespace II

/-- Python runtime errors raised by the embedded code. `fuelOut` is an
artifact of the fuel-bounded model of the `resultJson` recursion in
`extract_result_url` (the Python original terminates because each recursion
parses a strictly smaller string); theorems supply enough fuel. -/
inductive PyErr where
  | attributeError
  | typeError
  | nameError
  | fuelOut
  deriving DecidableEq

/-- JSON-like Python values: None, bool, int, str, list, dict. -/
inductive Json where
  | null
  | bool (b : Bool)
  | num (n : Int)
  | str (s : String)
  | arr (xs : List Json)
  | obj (fields : List (String × Json))

/-- Python truthiness of a JSON-like value. -/
def Json.truthy : Json → Bool
  | .null => false
  | .bool b => b
  | .num n => n != 0
  | .str s => s != ""
  | .arr xs => !xs.isEmpty
  | .obj fs => !fs.isEmpty

/-- Python `a or b`. -/
def pyOr (a b : Json) : Json := if a.truthy then a else b

/-- Whether a value is a dict. -/
def Json.isObjB : Json → Bool
  | .obj _ => true
  | _ => false

/-- Python `d.get(k)` on a value known to be a dict: the stored value, or
None when the key is absent (or the value is not a dict, a case every use
site below rules out first). -/
def Json.getd : Json → String → Json
  | .obj fs, k => (fs.lookup k).getD .null
  | _, _ => .null

/-- Python `x.get(k)` on an arbitrary value: AttributeError unless `x` is a
dict. -/
def pyGet (x : Json) (k : String) : Except PyErr Json :=
  match x with
  | .obj _ => .ok (x.getd k)
  | _ => .error .attributeError

/-- Python `s.startswith(pre)`, modelled structurally over the characters so
that concrete evaluations reduce. -/
def pyStartsWith (s pre : String) : Bool := pre.data.isPrefixOf s.data

/-- Python `s.endswith(suf)`. -/
def pyEndsWith (s suf : String) : Bool := suf.data.isSuffixOf s.data

/-- Python `s.lower()`. -/
def pyLower (s : String) : String := .mk (s.data.map Char.toLower)

/-- Python slicing `s[:n]`. -/
def pyTake (s : String) (n : Nat) : String := .mk (s.data.take n)

/-- A Python whitespace character (the set `str.strip` removes, reduced to
the common ASCII ones). -/
def isPySpace (c : Char) : Bool := c == ' ' || c == '\t' || c == '\n' || c == '\r'

/-- Truthiness of `s.strip()`: some character is not whitespace. -/
def stripTruthy (s : String) : Bool := s.data.any (fun c => !isPySpace c)

/-- The flat URL keys probed by extract_result_url (kie.py line 161). -/
def flat_url_keys : List String :=
  ["resultUrl", "url", "imageUrl", "resultImageUrl", "image_url", "result_url"]

/-- The images-array probe of extract_result_url (kie.py lines 147-158):
`images = response.get("images") or data.get("images")`, then the first
element as a string URL or a dict with a url/imageUrl field. -/
def probeImages (response data : Json) : Option String :=
  match pyOr (response.getd "images") (data.getd "images") with
  | .arr (first :: _) =>
    match first with
    | .obj fs =>
      match pyOr ((Json.obj fs).getd "url") ((Json.obj fs).getd "imageUrl") with
      | .str u => if pyStartsWith u "http" then some u else none
      | _ => none
    | .str s => if pyStartsWith s "http" then some s else none
    | _ => none
  | _ => none

/-- The flat-key loop of extract_result_url (kie.py lines 161-165):
for each key, `response.get(key) or data.get(key) or record.get(key)`,
returning the first http-prefixed string. -/
def probeFlatAux (response data record : Json) : List String → Option String
  | [] => none
  | k :: ks =>
    match pyOr (response.getd k) (pyOr (data.getd k) (record.getd k)) with
    | .str v =>
      if pyStartsWith v "http" then some v else probeFlatAux response data record ks
    | _ => probeFlatAux response data record ks

/-- The flat-key probe over the six known keys. -/
def probeFlat (response data record : Json) : Option String :=
  probeFlatAux response data record flat_url_keys

/-- The resultUrls-array probe of extract_result_url (kie.py lines 168-179):
`response.get("resultUrls") or data.get("resultUrls") or record.get("resultUrls")`,
taking the first element when it is an http-prefixed string. -/
def probeResultUrls (response data record : Json) : Option String :=
  match pyOr (response.getd "resultUrls")
      (pyOr (data.getd "resultUrls") (record.getd "resultUrls")) with
  | .arr (first :: _) =>
    match first with
    | .str u => if pyStartsWith u "http" then some u else none
    | _ => none
  | _ => none

/-- extract_result_url (kie.py lines 131-198). `loads` models `json.loads`
(an error models a raised parse exception); `fuel` bounds the `resultJson`
recursions, which in Python terminate because each parse consumes a strictly
smaller string. A non-dict record returns None; `data = record.get("data")
or {}` and `response = data.get("response") or data` raise AttributeError
when they produce a truthy non-dict (the subsequent `.get` calls); the
probes run in source order; a string `resultJson` is parsed and recursed
into inside a try whose handler returns None, a dict `resultJson` is
recursed into with no handler. -/
def extract_result_url (loads : String → Except Unit Json) :
    Nat → Json → Except PyErr (Option String)
  | 0, _ => .error .fuelOut
  | fuel + 1, record =>
    match record with
    | .obj _ =>
      match pyOr (record.getd "data") (.obj []) with
      | .obj dfs =>
        let data := Json.obj dfs
        match pyOr (data.getd "response") data with
        | .obj rfs =>
          let response := Json.obj rfs
          match probeImages response data with
          | some u => .ok (some u)
          | none =>
            match probeFlat response data record with
            | some u => .ok (some u)
            | none =>
              match probeResultUrls response data record with
              | some u => .ok (some u)
              | none =>
                match pyOr (response.getd "resultJson") (data.getd "resultJson") with
                | .str s =>
                  if stripTruthy s then
                    match loads s with
                    | .ok parsed =>
                      match extract_result_url loads fuel parsed with
                      | .ok o => .ok o
                      | .error _ => .ok none
                    | .error _ => .ok none
                  else .ok none
                | .obj jfs => extract_result_url loads fuel (.obj jfs)
                | _ => .ok none
        | _ => .error .attributeError
      | _ => .error .attributeError
    | _ => .ok none

/-- extract_veo_result_url (kie.py lines 201-231): reads
`data = record.get("data") or {}` and `info = data.get("info") or {}`,
then `info.get("resultUrls") or data.get("resultUrls")`, which may be a
JSON-encoded string (parsed inside a try) or an already-parsed list. -/
def extract_veo_result_url (loads : String → Except Unit Json) (record : Json) :
    Except PyErr (Option String) :=
  match record with
  | .obj _ =>
    match pyOr (record.getd "data") (.obj []) with
    | .obj dfs =>
      let data := Json.obj dfs
      match pyOr (data.getd "info") (.obj []) with
      | .obj ifs =>
        let info := Json.obj ifs
        match pyOr (info.getd "resultUrls") (data.getd "resultUrls") with
        | .str s =>
          .ok (match loads s with
            | .ok (.arr (first :: _)) =>
              match first with
              | .str u => if pyStartsWith u "http" then some u else none
              | _ => none
            | _ => none)
        | .arr (first :: _) =>
          .ok (match first with
            | .str u => if pyStartsWith u "http" then some u else none
            | _ => none)
        | _ => .ok none
      | _ => .error .attributeError
    | _ => .error .attributeError
  | _ => .ok none

/-- Inputs on which extract_result_url provably raises nothing: every
consulted `data` field and `response`-under-`data` field is a dict or falsy,
recursively along dict-valued `resultJson` fields. The fuel mirrors
extract_result_url; string-valued `resultJson` contents need no constraint
because exceptions in that recursion are swallowed by the source. -/
def SafeN : Nat → Json → Bool
  | 0, _ => false
  | fuel + 1, record =>
    match record with
    | .obj _ =>
      match pyOr (record.getd "data") (.obj []) with
      | .obj dfs =>
        let data := Json.obj dfs
        match pyOr (data.getd "response") data with
        | .obj rfs =>
          let response := Json.obj rfs
          match pyOr (response.getd "resultJson") (data.getd "resultJson") with
          | .obj jfs => SafeN fuel (.obj jfs)
          | _ => true
        | _ => false
      | _ => false
    | _ => true

/-- A json.loads model that always fails to parse. -/
def loads_none : String → Except Unit Json := fun _ => .error ()

/-- A json.loads model whose parse result carries a url field. -/
def loads_other : String → Except Unit Json :=
  fun _ => .ok (.obj [("url", .str "http://b")])

/-- Python truthiness of an Optional[str]: None and the empty string are
falsy. -/
def strOptTruthy : Option String → Bool
  | some s => s != ""
  | none => false

/-- Python `o or d` on an Optional[str] with a string default. -/
def pyOrStrOpt (o : Option String) (d : String) : String :=
  match o with
  | some s => if s != "" then s else d
  | none => d

/-- Helper for substring containment: pat occurs as a prefix of some
suffix. -/
def isInfixAux (pat : List Char) : List Char → Bool
  | [] => pat.isPrefixOf []
  | c :: cs => pat.isPrefixOf (c :: cs) || isInfixAux pat cs

/-- Python `pat in s` (substring containment). -/
def containsSubstr (s pat : String) : Bool := isInfixAux pat.data s.data

/-- MODEL_PRICES (generate.py lines 30-37): generation cost in credits. -/
def MODEL_PRICES : List (String × Rat) :=
  [("google/nano-banana-edit", 5), ("google/nano-banana", 5),
   ("nano-banana-pro", 10), ("seedream/4.5-text-to-image", 10),
   ("recraft/remove-background", 5), ("recraft/crisp-upscale", 5)]

/-- get_generation_price (generate.py lines 121-123): MODEL_PRICES with a
default of 10. -/
def get_generation_price (model : String) : Rat :=
  (MODEL_PRICES.lookup model).getD 10

/-- MIN_BALANCE_REQUIRED (generate.py lines 40-56). -/
def MIN_BALANCE_REQUIRED : List (String × Rat) :=
  [("veo3", 280), ("veo3_fast", 70), ("grok-imagine/text-to-video", 30),
   ("kling-2.6-text-to-video", 60), ("kling-2.6-image-to-video", 60),
   ("bytedance/v1-pro-fast-image-to-video", 20),
   ("sora-2-pro-text-to-video", 150), ("sora-2-pro-image-to-video", 150),
   ("sora-2-text-to-video", 30), ("sora-2-image-to-video", 30),
   ("seedream/4.5-text-to-image", 10), ("google/nano-banana-edit", 5),
   ("google/nano-banana", 5), ("nano-banana-pro", 20),
   ("recraft/remove-background", 5)]

/-- get_min_balance_required (generate.py lines 126-128): the table with a
default of 10. -/
def get_min_balance_required (model : String) : Rat :=
  (MIN_BALANCE_REQUIRED.lookup model).getD 10

/-- V1_PRO_PRICES (generate.py lines 59-66). -/
def V1_PRO_PRICES : List ((String × String) × Rat) :=
  [(("480p", "5"), 20), (("480p", "10"), 40), (("720p", "5"), 30),
   (("720p", "10"), 80), (("1080p", "5"), 80), (("1080p", "10"), 160)]

/-- get_v1_pro_price (generate.py lines 68-70). -/
def get_v1_pro_price (resolution duration : String) : Rat :=
  (V1_PRO_PRICES.lookup (resolution, duration)).getD 20

/-- SORA_2_PRICES (generate.py lines 73-76). -/
def SORA_2_PRICES : List (String × Rat) := [("10", 30), ("15", 40)]

/-- SORA_2_PRO_PRICES (generate.py lines 79-84). -/
def SORA_2_PRO_PRICES : List ((String × String) × Rat) :=
  [(("standard", "10"), 150), (("standard", "15"), 190),
   (("high", "10"), 250), (("high", "15"), 500)]

/-- get_sora_price (generate.py lines 86-104). -/
def get_sora_price (model : String) (quality duration : Option String) : Rat :=
  if model = "sora-2-text-to-video" ∨ model = "sora-2-image-to-video" then
    if strOptTruthy duration then (SORA_2_PRICES.lookup (duration.getD "")).getD 30
    else 30
  else if model = "sora-2-pro-text-to-video" ∨ model = "sora-2-pro-image-to-video" then
    if strOptTruthy quality ∧ strOptTruthy duration then
      (SORA_2_PRO_PRICES.lookup (quality.getD "", duration.getD "")).getD 150
    else if strOptTruthy quality then
      (SORA_2_PRO_PRICES.lookup (quality.getD "", "10")).getD 150
    else if strOptTruthy duration then
      (SORA_2_PRO_PRICES.lookup ("standard", duration.getD "")).getD 150
    else 150
  else 0

/-- get_kling_price (generate.py lines 107-118). -/
def get_kling_price (duration : Option String) (sound : Option Bool) : Rat :=
  if duration = some "5" ∧ sound ≠ some true then 60
  else if duration = some "5" ∧ sound = some true then 140
  else if duration = some "10" ∧ sound ≠ some true then 140
  else if duration = some "10" ∧ sound = some true then 280
  else 60

/-- The gpt4o size_map (kie.py lines 322-327). -/
def gpt4o_size_map : List (String × String) :=
  [("1:1", "1:1"), ("3:2", "3:2"), ("2:3", "2:3"), ("auto", "1:1")]

/-- The Market API size_map (kie.py lines 342-354). -/
def market_size_map : List (String × String) :=
  [("9:16", "9:16"), ("16:9", "16:9"), ("1:1", "1:1"), ("3:4", "3:4"),
   ("4:3", "4:3"), ("2:3", "2:3"), ("3:2", "3:2"), ("5:4", "5:4"),
   ("4:5", "4:5"), ("21:9", "21:9"), ("auto", "auto")]

/-- image_size (kie.py line 355): `size_map.get(aspect_ratio or "auto",
aspect_ratio or "auto")`. -/
def market_image_size (aspect_ratio : Option String) : String :=
  let key := pyOrStrOpt aspect_ratio "auto"
  (market_size_map.lookup key).getD key

/-- Keyword parameters declared by build_payload_for_model (kie.py lines
301-311). -/
def build_payload_for_model_params : List String :=
  ["model", "prompt", "aspect_ratio", "resolution", "output_format",
   "quality", "mode", "image_urls"]

/-- Keyword arguments the generate_video provider path passes to
build_payload_for_model (generate.py lines 461-472). -/
def generate_video_build_call_args : List String :=
  ["model", "prompt", "aspect_ratio", "resolution", "output_format",
   "quality", "mode", "image_urls", "duration", "sound"]

/-- Python call semantics: a keyword-only call succeeds only when every
keyword names a declared parameter; otherwise it raises TypeError before the
body runs. -/
def kwargsAccepted (call params : List String) : Bool :=
  call.all (fun k => params.contains k)

/-- build_payload_for_model (kie.py lines 301-543), dispatching on the model
id. The bytedance/v1-pro-fast-image-to-video branch builds its input and
then reads the undefined name `duration` (kie.py line 524), so it raises
NameError. Returns the payload and the is_gpt4o flag. -/
def build_payload_for_model (model prompt : String)
    (aspect_ratio resolution : Option String) (output_format : String)
    (quality mode : Option String) (image_urls : List String) :
    Except PyErr (Json × Bool) :=
  let image_urls_list := image_urls
  if model = "gpt4o-image" then
    let size := (gpt4o_size_map.lookup (pyOrStrOpt aspect_ratio "auto")).getD "1:1"
    let base : List (String × Json) :=
      [("prompt", .str prompt), ("size", .str size), ("nVariants", .num 1)]
    let payload :=
      if image_urls_list ≠ [] then
        Json.obj (base ++ [("filesUrl", .arr ((image_urls_list.take 5).map .str))])
      else Json.obj base
    .ok (payload, true)
  else
    let image_size := market_image_size aspect_ratio
    if model = "nano-banana-pro" ∨ model = "google/pro-image-to-image" then
      let i0 : List (String × Json) := [("prompt", .str (pyTake prompt 5000))]
      let i1 :=
        if image_urls_list ≠ [] then
          i0 ++ [("image_input", .arr ((image_urls_list.take 10).map .str))]
        else i0
      let i2 :=
        if strOptTruthy aspect_ratio then
          i1 ++ [("aspect_ratio", .str (aspect_ratio.getD ""))]
        else i1
      let i3 :=
        if strOptTruthy resolution then
          i2 ++ [("resolution", .str (resolution.getD ""))]
        else i2
      let i4 :=
        if output_format ≠ "" then
          i3 ++ [("output_format", .str (pyLower output_format))]
        else i3
      .ok (Json.obj [("model", .str "nano-banana-pro"), ("input", .obj i4)], false)
    else if model = "google/nano-banana-edit" then
      let actual_model :=
        if image_urls_list = [] then "google/nano-banana" else "google/nano-banana-edit"
      let base : List (String × Json) :=
        [("prompt", .str (pyTake prompt 5000)), ("output_format", .str "png"),
         ("image_size", .str image_size)]
      let input :=
        if image_urls_list ≠ [] then
          base ++ [("image_urls", .arr ((image_urls_list.take 10).map .str)),
                   ("mode", .str "edit")]
        else base
      .ok (Json.obj [("model", .str actual_model), ("input", .obj input)], false)
    else if model = "google/nano-banana" then
      .ok (Json.obj [("model", .str model),
        ("input", .obj [("prompt", .str (pyTake prompt 5000)),
          ("output_format", .str "png"), ("image_size", .str image_size)])], false)
    else if model = "flux2/pro-image-to-image" ∨ model = "flux2/flex-image-to-image" then
      let base : List (String × Json) :=
        [("prompt", .str (pyTake prompt 5000)), ("image_size", .str image_size),
         ("output_format", .str (if output_format ≠ "" then output_format else "png"))]
      let input :=
        if image_urls_list ≠ [] then
          base ++ [("image_urls", .arr ((image_urls_list.take 5).map .str))]
        else base
      .ok (Json.obj [("model", .str model), ("input", .obj input)], false)
    else if model = "flux2/pro-text-to-image" ∨ model = "flux2/flex-text-to-image" then
      .ok (Json.obj [("model", .str model),
        ("input", .obj [("prompt", .str (pyTake prompt 5000)),
          ("image_size", .str image_size),
          ("output_format", .str (if output_format ≠ "" then output_format else "png"))])],
        false)
    else if model = "bytedance/seedream-v4-text-to-image" ∨ model = "seedream/4.5-text-to-image" then
      if containsSubstr model "4.5" then
        .ok (Json.obj [("model", .str model),
          ("input", .obj [("prompt", .str (pyTake prompt 3000)),
            ("aspect_ratio", .str (pyOrStrOpt aspect_ratio "1:1")),
            ("quality", .str (pyOrStrOpt quality "basic"))])], false)
      else
        .ok (Json.obj [("model", .str "bytedance/seedream-v4-text-to-image"),
          ("input", .obj [("prompt", .str (pyTake prompt 5000)),
            ("image_size", .str image_size),
            ("output_format", .str (if output_format ≠ "" then output_format else "png"))])],
          false)
    else if model = "bytedance/seedream-v4-edit" ∨ model = "seedream/4.5-edit" then
      if containsSubstr model "4.5" then
        let i0 : List (String × Json) :=
          [("prompt", .str (pyTake prompt 3000)),
           ("aspect_ratio", .str (pyOrStrOpt aspect_ratio "1:1")),
           ("quality", .str (pyOrStrOpt quality "basic"))]
        let input :=
          if image_urls_list ≠ [] then
            i0 ++ [("image_urls", .arr ((image_urls_list.take 14).map .str))]
          else i0
        .ok (Json.obj [("model", .str model), ("input", .obj input)], false)
      else
        let base : List (String × Json) :=
          [("prompt", .str (pyTake prompt 5000)), ("image_size", .str image_size),
           ("output_format", .str (if output_format ≠ "" then output_format else "png"))]
        let input :=
          if image_urls_list ≠ [] then
            base ++ [("image_urls", .arr ((image_urls_list.take 5).map .str))]
          else base
        .ok (Json.obj [("model", .str "bytedance/seedream-v4-edit"),
          ("input", .obj input)], false)
    else if model = "grok-imagine/text-to-video" then
      let i0 : List (String × Json) :=
        [("prompt", .str (pyTake prompt 5000)), ("mode", .str (pyOrStrOpt mode "normal"))]
      let input :=
        if strOptTruthy aspect_ratio then
          i0 ++ [("aspect_ratio", .str (aspect_ratio.getD ""))]
        else i0
      .ok (Json.obj [("model", .str model), ("input", .obj input)], false)
    else if model = "grok-imagine/image-to-video" then
      let i0 : List (String × Json) :=
        [("prompt", .str (pyTake prompt 5000)), ("mode", .str (pyOrStrOpt mode "normal"))]
      let input :=
        if image_urls_list ≠ [] then
          i0 ++ [("image_urls", .arr ((image_urls_list.take 1).map .str))]
        else i0
      .ok (Json.obj [("model", .str model), ("input", .obj input)], false)
    else if model = "bytedance/v1-pro-fast-image-to-video" then
      let i0 : List (String × Json) := [("prompt", .str (pyTake prompt 10000))]
      let i1 :=
        if image_urls_list ≠ [] then
          i0 ++ [("image_url", .str (image_urls_list.headD ""))]
        else i0
      let _i2 :=
        if strOptTruthy resolution then
          i1 ++ [("resolution", .str (resolution.getD ""))]
        else i1
      -- the next source line is `if duration:` with no name `duration` in
      -- scope (kie.py line 524): NameError
      .error .nameError
    else
      let base : List (String × Json) :=
        [("prompt", .str (pyTake prompt 5000)), ("image_size", .str image_size),
         ("output_format", .str (if output_format ≠ "" then output_format else "png"))]
      let input :=
        if image_urls_list ≠ [] then
          base ++ [("image_urls", .arr ((image_urls_list.take 5).map .str))]
        else base
      .ok (Json.obj [("model", .str model), ("input", .obj input)], false)

/-- The User model (models.py lines 11-17): its columns are exactly id,
tgid, balance and created_at. Only the columns the embedded handlers read
are kept; there is no referred_by column. -/
structure User where
  tgid : Int
  balance : Rat
  deriving DecidableEq

/-- Attribute access `user.referred_by`: the User model declares no such
column (models.py lines 11-17), so the access raises AttributeError. Were
the column present it would hold an optional referrer tgid, hence the
result type. -/
def User.referred_by (_ : User) : Except PyErr (Option Int) :=
  .error .attributeError

/-- The Payment model (models.py lines 68-79), with a numeric surrogate for
the UUID primary key. -/
structure Payment where
  pid : Nat
  tgid : Int
  yookassa_payment_id : Option String
  amount : Rat
  tokens : Rat
  status : String
  deriving DecidableEq

/-- The Generation model (models.py lines 46-64); the mode column (always
left at its default by the embedded handlers) and the timestamps are
omitted. -/
structure Generation where
  tgid : Int
  template_id : Option Nat
  model : String
  aspect_ratio : Option String
  resolution : Option String
  output_format : Option String
  prompt : String
  status : String
  kie_task_id : Option String
  result_url : Option String
  deriving DecidableEq

/-- The Template model, reduced to what generate_image reads. -/
structure Template where
  tid : Nat
  default_prompt : Option String
  deriving DecidableEq

/-- The durable database state; in-session mutations reach it only at a
commit. -/
structure DB where
  users : List User
  payments : List Payment
  generations : List Generation
  templates : List Template
  deriving DecidableEq

/-- The settings read by the embedded handlers. -/
structure Settings where
  n8n_webhook_urls : Option String
  kie_callback_url : Option String
  ref_webhook_url : Option String

/-- `select(User).where(User.tgid == t)` followed by first(). -/
def findUserByTgid (st : DB) (t : Int) : Option User :=
  st.users.find? (fun u => u.tgid == t)

/-- Writing a user balance in the session. -/
def setUserBalance (st : DB) (t : Int) (b : Rat) : DB :=
  { st with users := st.users.map (fun u => if u.tgid == t then { u with balance := b } else u) }

/-- `select(Payment).where(Payment.yookassa_payment_id == y)` first(). -/
def findPaymentByYoo (st : DB) (y : String) : Option Payment :=
  st.payments.find? (fun p => p.yookassa_payment_id == some y)

/-- `select(Payment).where(Payment.id == pid, Payment.tgid == t)` first(). -/
def findPaymentByIdAndTgid (st : DB) (pid : Nat) (t : Int) : Option Payment :=
  st.payments.find? (fun p => p.pid == pid && p.tgid == t)

/-- Writing a payment status in the session. -/
def setPaymentStatus (st : DB) (pid : Nat) (s : String) : DB :=
  { st with payments := st.payments.map (fun p => if p.pid == pid then { p with status := s } else p) }

/-- Rendering of a PyErr as `str(e)` renders the exception class. -/
def pyErrStr : PyErr → String
  | .attributeError => "AttributeError"
  | .typeError => "TypeError"
  | .nameError => "NameError"
  | .fuelOut => "FuelOut"

/-- The credit-and-referral block duplicated at payments.py lines 206-243
(webhook) and 283-317 (status poll): mark the payment succeeded, look up
the owning user; when found, credit the token amount and then consult
`db_user.referred_by` — which raises AttributeError because the column does
not exist. The referral code past that access is dead but embedded
faithfully (a 10 percent bonus to a found referrer, then a fire-and-forget
notification whose failure is only logged). When no user is found the block
completes with just the status change. -/
def reconcile_block (st : DB) (_stg : Settings) (p : Payment) : Except PyErr DB := do
  let st1 := setPaymentStatus st p.pid "succeeded"
  match findUserByTgid st1 p.tgid with
  | none => pure st1
  | some u =>
    let st2 := setUserBalance st1 u.tgid (u.balance + p.tokens)
    let rb ← u.referred_by
    let st3 :=
      match rb with
      | some r =>
        if r != 0 then
          let bonus := p.tokens * ((1 : Rat) / 10)
          match findUserByTgid st2 r with
          | some refu => setUserBalance st2 refu.tgid (refu.balance + bonus)
          | none => st2
        else st2
      | none => st2
    pure st3

/-- Outcomes of the webhook route, mirroring its returned dicts. -/
inductive WebhookResp where
  | ok
  | ignored
  | already_processed
  | errorDetail (detail : String)
  deriving DecidableEq

/-- yookassa_webhook (payments.py lines 171-247). The request body is given
already parsed as its event and object id fields; an unparsable body (an
error return in the source) is outside this model. The try block wraps the
whole lookup-and-credit sequence: any exception rolls the session back and
returns an error outcome, so the durable state is unchanged. -/
def yookassa_webhook (st : DB) (stg : Settings) (event : Option String)
    (objId : Option String) : WebhookResp × DB :=
  if event ≠ some "payment.succeeded" then (.ignored, st)
  else
    match objId with
    | none => (.errorDetail "No payment id", st)
    | some yid =>
      if yid = "" then (.errorDetail "No payment id", st)
      else
        match findPaymentByYoo st yid with
        | none => (.errorDetail "Payment not found", st)
        | some p =>
          if p.status = "succeeded" then (.already_processed, st)
          else
            match reconcile_block st stg p with
            | .ok st1 => (.ok, st1)
            | .error e => (.errorDetail (pyErrStr e), st)

/-- Responses of the payment status route; the created_at field of the
source response is omitted. -/
inductive StatusResp where
  | httpErr (code : Nat)
  | info (status : String) (amount tokens : Rat)
  deriving DecidableEq

/-- get_payment_status (payments.py lines 250-326). `payment_uuid` is none
for an unparsable payment id; `find_one` models the gateway lookup (an
error models a configure/find exception, swallowed by `except: pass`).
When the gateway reports succeeded on a pending payment the shared
reconcile block runs inside the try; an exception there is swallowed and
the commit at the end of the try never runs, so the durable state is
unchanged — but the response reads the in-session payment object, whose
status was already set to succeeded before the raise. -/
def get_payment_status (st : DB) (stg : Settings) (payment_uuid : Option Nat)
    (caller : Int) (yoo_import_ok : Bool) (find_one : Except Unit String) :
    StatusResp × DB :=
  match payment_uuid with
  | none => (.httpErr 400, st)
  | some pid =>
    match findPaymentByIdAndTgid st pid caller with
    | none => (.httpErr 404, st)
    | some p =>
      if p.status = "pending" ∧ yoo_import_ok = true ∧ (p.yookassa_payment_id.getD "") ≠ "" then
        match find_one with
        | .error _ => (.info p.status p.amount p.tokens, st)
        | .ok ys =>
          if ys = "succeeded" ∧ p.status ≠ "succeeded" then
            match reconcile_block st stg p with
            | .ok st1 => (.info "succeeded" p.amount p.tokens, st1)
            | .error _ => (.info "succeeded" p.amount p.tokens, st)
          else (.info p.status p.amount p.tokens, st)
      else (.info p.status p.amount p.tokens, st)

/-- Parsing settings.n8n_webhook_urls (generate.py lines 586-591): split on
commas, strip, drop empties; a falsy setting yields no webhooks. -/
def parse_n8n_webhooks : Option String → List String
  | none => []
  | some s => if s = "" then [] else ((s.splitOn ",").map String.trim).filter (fun u => u ≠ "")

/-- Responses of the generation routes. -/
inductive GenResp where
  | ok (gen_pid : Nat) (task_id : String) (status : String)
  | sent_to_n8n (gen_pid : Nat)
  | insufficient (required current : Rat) (model : String)
  | httpErr (code : Nat)
  deriving DecidableEq

/-- Final image URLs (generate.py lines 565-582): provided image_urls win;
otherwise each file is uploaded in turn and any failure aborts with an
error; `files` carries each upload outcome. -/
def resolve_uploads (image_urls_list : List String)
    (files : List (Except Unit String)) : Except Unit (List String) :=
  if image_urls_list ≠ [] then .ok image_urls_list
  else files.mapM id

/-- The KieError message inspection of the routes (generate.py lines
681-683): a 422 or validation message maps to HTTP 422, else 400. -/
def kieErrIs422 (emsg : String) : Bool :=
  containsSubstr emsg "422" || containsSubstr (pyLower emsg) "code 422" ||
    containsSubstr (pyLower emsg) "validation"

/-- Python `payload["callBackUrl"] = cb` on a dict payload. -/
def Json.setKey (j : Json) (k : String) (v : Json) : Json :=
  match j with
  | .obj fs =>
    if (fs.lookup k).isSome then
      .obj (fs.map (fun kv => if kv.1 == k then (k, v) else kv))
    else .obj (fs ++ [(k, v)])
  | _ => j

/-- generate_image (generate.py lines 510-705). External effects are given
as oracles: `files` holds the upload outcomes, `webhook_ok i` whether the
i-th n8n post succeeded, `task_oracle` the provider submission outcome (an
error carries the KieError message). The balance precheck runs before any
upload, webhook or provider call; the provider path persists a queued row
only after the oracle accepts the task. -/
def generate_image (st : DB) (stg : Settings) (caller : Int)
    (model prompt : String) (aspect_ratio resolution : Option String)
    (output_format : String) (quality : Option String)
    (template_id : Option Nat) (image_urls_list : List String)
    (files : List (Except Unit String)) (webhook_ok : Nat → Bool)
    (task_oracle : Except String String) : GenResp × DB :=
  match (match template_id with
         | none => Except.ok (none : Option Template)
         | some tid =>
           match st.templates.find? (fun t : Template => t.tid == tid) with
           | none => Except.error (GenResp.httpErr 404)
           | some t => Except.ok (some t)) with
  | .error r => (r, st)
  | .ok template =>
    let prompt :=
      match template with
      | some t => if (t.default_prompt.getD "") ≠ "" ∧ prompt = "" then t.default_prompt.getD "" else prompt
      | none => prompt
    match findUserByTgid st caller with
    | none => (.httpErr 404, st)
    | some db_user =>
      let min_balance := get_min_balance_required model
      let user_balance := if db_user.balance != 0 then db_user.balance else 0
      if user_balance < min_balance then
        (.insufficient min_balance user_balance model, st)
      else
        match resolve_uploads image_urls_list files with
        | .error _ => (.httpErr 400, st)
        | .ok final_image_urls =>
          let n8n := parse_n8n_webhooks stg.n8n_webhook_urls
          if n8n ≠ [] then
            let all_failed := (List.range n8n.length).all (fun i => !(webhook_ok i))
            if all_failed then (.httpErr 500, st)
            else
              let g : Generation :=
                { tgid := caller, template_id := template.map (fun t : Template => t.tid),
                  model := model, aspect_ratio := aspect_ratio,
                  resolution := resolution, output_format := some output_format,
                  prompt := prompt, status := "sent_to_n8n",
                  kie_task_id := none, result_url := none }
              (.sent_to_n8n st.generations.length,
               { st with generations := st.generations ++ [g] })
          else
            match build_payload_for_model model prompt aspect_ratio resolution
                output_format quality none final_image_urls with
            | .error _ => (.httpErr 500, st)
            | .ok (payload, _is_gpt4o) =>
              let _payload :=
                match stg.kie_callback_url with
                | some cb => if cb ≠ "" then payload.setKey "callBackUrl" (.str cb) else payload
                | none => payload
              match task_oracle with
              | .error emsg =>
                if kieErrIs422 emsg then (.httpErr 422, st) else (.httpErr 400, st)
              | .ok task_id =>
                let g : Generation :=
                  { tgid := caller, template_id := template.map (fun t : Template => t.tid),
                    model := model, aspect_ratio := aspect_ratio,
                    resolution := none, output_format := some "mp4",
                    prompt := prompt, status := "queued",
                    kie_task_id := some task_id, result_url := none }
                (.ok st.generations.length task_id "queued",
                 { st with generations := st.generations ++ [g] })

/-- The balance requirement of generate_video (generate.py lines 302-320):
V1 Pro by resolution and duration, Sora by model, quality and duration,
everything else from the min-balance table; missing parameters abort with
HTTP 400. -/
def video_required_balance (model : String)
    (resolution duration : Option String) (is_v1_pro is_sora : Bool) :
    Except GenResp Rat :=
  if is_v1_pro then
    if !(strOptTruthy resolution) || !(strOptTruthy duration) then
      .error (.httpErr 400)
    else .ok (get_v1_pro_price (resolution.getD "") (duration.getD ""))
  else if is_sora then
    if !(strOptTruthy duration) then .error (.httpErr 400)
    else if model = "sora-2-pro-text-to-video" ∨ model = "sora-2-pro-image-to-video" then
      if !(strOptTruthy resolution) then .error (.httpErr 400)
      else .ok (get_sora_price model resolution duration)
    else .ok (get_sora_price model none duration)
  else .ok (get_min_balance_required model)

/-- generate_video (generate.py lines 236-507). Oracles as in
generate_image. When no n8n webhook is configured, the provider path calls
build_payload_for_model with the keyword arguments of
generate_video_build_call_args, two of which (duration, sound) the function
does not declare: Python raises TypeError at the call, the blanket except
turns it into HTTP 500, and no row is persisted. The code past that call is
dead but embedded faithfully. -/
def generate_video (st : DB) (stg : Settings) (caller : Int)
    (model prompt : String) (aspect_ratio mode : Option String)
    (resolution duration _sound : Option String)
    (image_urls_list : List String) (files : List (Except Unit String))
    (webhook_ok : Nat → Bool) (task_oracle : Except String String) :
    GenResp × DB :=
  match findUserByTgid st caller with
  | none => (.httpErr 404, st)
  | some db_user =>
    let is_v1_pro := model == "bytedance/v1-pro-fast-image-to-video"
    let is_sora := pyStartsWith model "sora-" && !(pyEndsWith model "storyboard")
    let is_kling := pyStartsWith model "kling-2.6"
    match resolve_uploads image_urls_list files with
    | .error _ => (.httpErr 400, st)
    | .ok final_image_urls =>
      if is_v1_pro && final_image_urls.length == 0 then (.httpErr 400, st)
      else
        match video_required_balance model resolution duration is_v1_pro is_sora with
        | .error r => (r, st)
        | .ok required_balance =>
          let user_balance := if db_user.balance != 0 then db_user.balance else 0
          if user_balance < required_balance then
            (.insufficient required_balance user_balance model, st)
          else
            let n8n := parse_n8n_webhooks stg.n8n_webhook_urls
            if n8n ≠ [] then
              let all_failed := (List.range n8n.length).all (fun i => !(webhook_ok i))
              if all_failed then (.httpErr 500, st)
              else
                let g : Generation :=
                  { tgid := caller, template_id := none, model := model,
                    aspect_ratio := aspect_ratio,
                    resolution := if is_v1_pro then resolution else none,
                    output_format := some "mp4", prompt := prompt,
                    status := "sent_to_n8n", kie_task_id := none,
                    result_url := none }
                (.sent_to_n8n st.generations.length,
                 { st with generations := st.generations ++ [g] })
            else
              if !(kwargsAccepted generate_video_build_call_args build_payload_for_model_params) then
                -- TypeError at the build_payload_for_model call
                -- (generate.py lines 461-472) caught at lines 488-490
                (.httpErr 500, st)
              else
                -- dead code: the keyword check above always fails
                let video_aspect_ratio :=
                  if is_sora then aspect_ratio
                  else if final_image_urls.length == 0 then aspect_ratio else none
                let kling_aspect_ratio :=
                  if is_kling && final_image_urls.length == 0 then aspect_ratio else none
                match build_payload_for_model model prompt
                    (if !is_kling then video_aspect_ratio else kling_aspect_ratio)
                    (if is_sora then resolution else none) "mp4" none mode
                    final_image_urls with
                | .error _ => (.httpErr 500, st)
                | .ok _ =>
                  match task_oracle with
                  | .error emsg =>
                    if kieErrIs422 emsg then (.httpErr 422, st) else (.httpErr 400, st)
                  | .ok task_id =>
                    let g : Generation :=
                      { tgid := caller, template_id := none, model := model,
                        aspect_ratio := aspect_ratio,
                        resolution := if is_v1_pro then resolution else none,
                        output_format := some "mp4", prompt := prompt,
                        status := "queued", kie_task_id := some task_id,
                        result_url := none }
                    (.ok st.generations.length task_id "queued",
                     { st with generations := st.generations ++ [g] })

/-- Errors of the poll route: HTTPException, a KieError from poll_task, or
an uncaught Python error (both reach the client as a server error and leave
the record uncommitted). -/
inductive PollErr where
  | http (code : Nat)
  | kieError
  | py (e : PyErr)
  deriving DecidableEq

/-- Python `str(x)` for the status value; the container cases never carry a
truthy string status and their exact repr is irrelevant to the routes. -/
def pyStr : Json → String
  | .str s => s
  | .num n => toString n
  | .bool true => "True"
  | .bool false => "False"
  | .null => "None"
  | .arr _ => "<list>"
  | .obj _ => "<dict>"

/-- poll_generation (generate.py lines 708-754). `gen_lookup` is the row
fetched for the caller; a missing row is 404 and a falsy kie_task_id 400.
`data` is the poll_task response (poll_task raises KieError on a non-dict
body). The provider status, when truthy, overwrites the stored status
lowercased; then the extractor for the model family runs, and a URL forces
result_url and the done status. The updated row is committed only on
success. -/
def poll_generation (loads : String → Except Unit Json) (fuel : Nat)
    (gen_lookup : Option Generation) (data : Json) : Except PollErr Generation :=
  match gen_lookup with
  | none => .error (.http 404)
  | some gen =>
    if (gen.kie_task_id.getD "") = "" then .error (.http 400)
    else if !data.isObjB then .error .kieError
    else
      match pyGet (pyOr (data.getd "data") (.obj [])) "status" with
      | .error e => .error (.py e)
      | .ok s0 =>
        let status := pyOr s0 (data.getd "status")
        let gen1 := if status.truthy then { gen with status := pyLower (pyStr status) } else gen
        match (if gen.model == "veo3" || gen.model == "veo3_fast" then
                 extract_veo_result_url loads data
               else extract_result_url loads fuel data) with
        | .error e => .error (.py e)
        | .ok url =>
          match url with
          | some u =>
            if u ≠ "" then .ok { gen1 with result_url := some u, status := "done" }
            else .ok gen1
          | none => .ok gen1

/-- A URL the images probe returns starts with http. -/
theorem probeImages_http {r d : Json} {u : String}
    (h : probeImages r d = some u) : pyStartsWith u "http" = true := by
  simp only [probeImages] at h
  repeat' split at h
  all_goals first
    | exact Option.noConfusion h
    | (injection h with h2; subst h2; assumption)

/-- A URL the flat-key loop returns starts with http. -/
theorem probeFlatAux_http {r d rec : Json} {u : String} :
    ∀ ks, probeFlatAux r d rec ks = some u → pyStartsWith u "http" = true := by
  intro ks
  induction ks with
  | nil => intro h; exact Option.noConfusion h
  | cons k ks ih =>
    intro h
    simp only [probeFlatAux] at h
    split at h
    · split at h
      · injection h with h2; subst h2; assumption
      · exact ih h
    · exact ih h

/-- A URL the flat-key probe returns starts with http. -/
theorem probeFlat_http {r d rec : Json} {u : String}
    (h : probeFlat r d rec = some u) : pyStartsWith u "http" = true :=
  probeFlatAux_http _ h

/-- A URL the resultUrls probe returns starts with http. -/
theorem probeResultUrls_http {r d rec : Json} {u : String}
    (h : probeResultUrls r d rec = some u) : pyStartsWith u "http" = true := by
  simp only [probeResultUrls] at h
  repeat' split at h
  all_goals first
    | exact Option.noConfusion h
    | (injection h with h2; subst h2; assumption)

/-- Every URL extract_result_url returns starts with http. -/
theorem extract_http (loads : String → Except Unit Json) :
    ∀ (fuel : Nat) (record : Json) (u : String),
      extract_result_url loads fuel record = .ok (some u) →
      pyStartsWith u "http" = true := by
  intro fuel
  induction fuel with
  | zero =>
    intro record u h
    simp only [extract_result_url] at h
    exact Except.noConfusion h
  | succ n ih =>
    intro record u h
    simp only [extract_result_url] at h
    repeat' split at h
    all_goals first
      | exact Except.noConfusion h
      | (injection h with h2; exact Option.noConfusion h2)
      | exact ih _ _ h
      | (injection h with h2; injection h2 with h3; subst h3;
         first
           | exact probeImages_http (by assumption)
           | exact probeFlat_http (by assumption)
           | exact probeResultUrls_http (by assumption))
      | (injection h with h2; subst h2; exact ih _ _ (by assumption))

/-- Every URL extract_veo_result_url returns starts with http. -/
theorem extract_veo_http (loads : String → Except Unit Json) {record : Json}
    {u : String} (h : extract_veo_result_url loads record = .ok (some u)) :
    pyStartsWith u "http" = true := by
  simp only [extract_veo_result_url] at h
  repeat' split at h
  all_goals first
    | exact Except.noConfusion h
    | (injection h with h2; exact Option.noConfusion h2)
    | (injection h with h2; injection h2 with h3; subst h3; assumption)

/-- An http-prefixed string is nonempty. -/
theorem pyStartsWith_http_ne_empty {u : String}
    (h : pyStartsWith u "http" = true) : u ≠ "" := by
  intro he
  subst he
  exact absurd h (by decide)

/-- When extract_result_url returns at all, the data wrapper it derived is a
dict. -/
theorem extract_ok_data (loads : String → Except Unit Json) {fuel : Nat}
    {record : Json} {o : Option String}
    (h : extract_result_url loads fuel record = .ok o) :
    ∃ dfs, pyOr (record.getd "data") (.obj []) = .obj dfs := by
  cases fuel with
  | zero =>
    simp only [extract_result_url] at h
    exact Except.noConfusion h
  | succ n =>
    cases record with
    | obj rfields =>
      simp only [extract_result_url] at h
      cases hd : pyOr (Json.getd (Json.obj rfields) "data") (Json.obj []) with
      | obj dfs => exact ⟨dfs, rfl⟩
      | null => simp only [hd] at h; exact Except.noConfusion h
      | bool b => simp only [hd] at h; exact Except.noConfusion h
      | num m => simp only [hd] at h; exact Except.noConfusion h
      | str s => simp only [hd] at h; exact Except.noConfusion h
      | arr xs => simp only [hd] at h; exact Except.noConfusion h
    | null => exact ⟨[], rfl⟩
    | bool b => exact ⟨[], rfl⟩
    | num m => exact ⟨[], rfl⟩
    | str s => exact ⟨[], rfl⟩
    | arr xs => exact ⟨[], rfl⟩

/-- When extract_veo_result_url returns at all, the data wrapper it derived
is a dict. -/
theorem extract_veo_ok_data (loads : String → Except Unit Json) {record : Json}
    {o : Option String} (h : extract_veo_result_url loads record = .ok o) :
    ∃ dfs, pyOr (record.getd "data") (.obj []) = .obj dfs := by
  cases record with
  | obj rfields =>
    simp only [extract_veo_result_url] at h
    cases hd : pyOr (Json.getd (Json.obj rfields) "data") (Json.obj []) with
    | obj dfs => exact ⟨dfs, rfl⟩
    | null => simp only [hd] at h; exact Except.noConfusion h
    | bool b => simp only [hd] at h; exact Except.noConfusion h
    | num m => simp only [hd] at h; exact Except.noConfusion h
    | str s => simp only [hd] at h; exact Except.noConfusion h
    | arr xs => simp only [hd] at h; exact Except.noConfusion h
  | null => exact ⟨[], rfl⟩
  | bool b => exact ⟨[], rfl⟩
  | num m => exact ⟨[], rfl⟩
  | str s => exact ⟨[], rfl⟩
  | arr xs => exact ⟨[], rfl⟩

/-- C6 counterexample input: a dict whose data field is a truthy non-dict. -/
def badDataRecord : Json := .obj [("data", .str "x")]

/-- C6: extract_result_url raises AttributeError on a dict whose data field
is the truthy non-dict string x, refuting totality as claimed. -/
theorem c6_counterexample_data_not_dict :
    extract_result_url loads_none 1 badDataRecord = .error .attributeError := rfl

/-- C6 amended: extract_result_url never raises on inputs whose consulted
data and response wrappers are dicts or falsy, recursively along dict-valued
resultJson fields (the SafeN set); scalar, null, string, array and
empty-object inputs are all in that set at any positive fuel. -/
theorem c6_extract_total_on_safe (loads : String → Except Unit Json) :
    ∀ (fuel : Nat) (record : Json), SafeN fuel record = true →
      ∃ o, extract_result_url loads fuel record = .ok o := by
  intro fuel
  induction fuel with
  | zero => intro record h; simp [SafeN] at h
  | succ n ih =>
    intro record h
    cases record with
    | null => exact ⟨none, rfl⟩
    | bool b => exact ⟨none, rfl⟩
    | num m => exact ⟨none, rfl⟩
    | str s => exact ⟨none, rfl⟩
    | arr xs => exact ⟨none, rfl⟩
    | obj rfields =>
      simp only [SafeN] at h
      simp only [extract_result_url]
      cases hd : pyOr (Json.getd (Json.obj rfields) "data") (Json.obj []) with
      | null => simp only [hd] at h; exact Bool.noConfusion h
      | bool b => simp only [hd] at h; exact Bool.noConfusion h
      | num m => simp only [hd] at h; exact Bool.noConfusion h
      | str s => simp only [hd] at h; exact Bool.noConfusion h
      | arr xs => simp only [hd] at h; exact Bool.noConfusion h
      | obj dfs =>
        simp only [hd] at h
        cases hr : pyOr (Json.getd (Json.obj dfs) "response") (Json.obj dfs) with
        | null => simp only [hr] at h; exact Bool.noConfusion h
        | bool b => simp only [hr] at h; exact Bool.noConfusion h
        | num m => simp only [hr] at h; exact Bool.noConfusion h
        | str s => simp only [hr] at h; exact Bool.noConfusion h
        | arr xs => simp only [hr] at h; exact Bool.noConfusion h
        | obj rfs =>
          simp only [hr] at h
          cases hpi : probeImages (Json.obj rfs) (Json.obj dfs) with
          | some u => exact ⟨some u, by simp only [hr, hpi]⟩
          | none =>
            cases hpf : probeFlat (Json.obj rfs) (Json.obj dfs) (Json.obj rfields) with
            | some u => exact ⟨some u, by simp only [hr, hpi, hpf]⟩
            | none =>
              cases hpu : probeResultUrls (Json.obj rfs) (Json.obj dfs) (Json.obj rfields) with
              | some u => exact ⟨some u, by simp only [hr, hpi, hpf, hpu]⟩
              | none =>
                cases hrj : pyOr (Json.getd (Json.obj rfs) "resultJson")
                    (Json.getd (Json.obj dfs) "resultJson") with
                | null => exact ⟨none, by simp only [hr, hpi, hpf, hpu, hrj]⟩
                | bool b => exact ⟨none, by simp only [hr, hpi, hpf, hpu, hrj]⟩
                | num m => exact ⟨none, by simp only [hr, hpi, hpf, hpu, hrj]⟩
                | arr xs => exact ⟨none, by simp only [hr, hpi, hpf, hpu, hrj]⟩
                | str s =>
                  by_cases hs : stripTruthy s = true
                  · cases hl : loads s with
                    | error e =>
                      exact ⟨none, by simp only [hr, hpi, hpf, hpu, hrj, hs, if_true, hl]⟩
                    | ok parsed =>
                      cases he : extract_result_url loads n parsed with
                      | ok o =>
                        exact ⟨o, by simp only [hr, hpi, hpf, hpu, hrj, hs, if_true, hl, he]⟩
                      | error e =>
                        exact ⟨none, by simp only [hr, hpi, hpf, hpu, hrj, hs, if_true, hl, he]⟩
                  · refine ⟨none, ?_⟩
                    simp only [Bool.not_eq_true] at hs
                    simp only [hr, hpi, hpf, hpu, hrj, hs, Bool.false_eq_true, if_false]
                | obj jfs =>
                  simp only [hrj] at h
                  obtain ⟨o, ho⟩ := ih (Json.obj jfs) h
                  exact ⟨o, by simp only [hr, hpi, hpf, hpu, hrj]; exact ho⟩

/-- C6 witness record for the safe set: a dict response wrapped twice. -/
def safeRecord : Json :=
  .obj [("data", .obj [("response", .obj [("foo", .num 1)])])]

/-- C6 witness: the empty object and a nested response wrapper are in the
safe set and extract without raising. -/
theorem c6_witness :
    (SafeN 1 (Json.obj []) = true ∧
      ∃ o, extract_result_url loads_none 1 (Json.obj []) = .ok o) ∧
    (SafeN 2 safeRecord = true ∧
      ∃ o, extract_result_url loads_none 2 safeRecord = .ok o) :=
  ⟨⟨rfl, c6_extract_total_on_safe loads_none 1 (Json.obj []) rfl⟩,
   ⟨rfl, c6_extract_total_on_safe loads_none 2 safeRecord rfl⟩⟩

/-- C8: whenever the family extractor returns a URL from the poll response,
poll_generation succeeds and the committed generation carries that URL in
result_url with the terminal done status, regardless of the provider status
field inside the response. -/
theorem c8_url_forces_done (loads : String → Except Unit Json) (fuel : Nat)
    (gen : Generation) (data : Json) (u : String)
    (htask : (gen.kie_task_id.getD "") ≠ "")
    (hex : (if gen.model == "veo3" || gen.model == "veo3_fast" then
              extract_veo_result_url loads data
            else extract_result_url loads fuel data) = .ok (some u)) :
    ∃ g, poll_generation loads fuel (some gen) data = .ok g ∧
      g.status = "done" ∧ g.result_url = some u := by
  have hhttp : pyStartsWith u "http" = true := by
    by_cases hv : (gen.model == "veo3" || gen.model == "veo3_fast") = true
    · rw [if_pos hv] at hex
      exact extract_veo_http loads hex
    · rw [if_neg hv] at hex
      exact extract_http loads fuel data u hex
  have hne : u ≠ "" := pyStartsWith_http_ne_empty hhttp
  have hdata : ∃ dfs, pyOr (data.getd "data") (.obj []) = .obj dfs := by
    by_cases hv : (gen.model == "veo3" || gen.model == "veo3_fast") = true
    · rw [if_pos hv] at hex
      exact extract_veo_ok_data loads hex
    · rw [if_neg hv] at hex
      exact extract_ok_data loads hex
  have hobj : data.isObjB = true := by
    cases data with
    | obj _ => rfl
    | null =>
      exfalso
      by_cases hv : (gen.model == "veo3" || gen.model == "veo3_fast") = true
      · rw [if_pos hv] at hex; simp [extract_veo_result_url] at hex
      · rw [if_neg hv] at hex
        cases fuel with
        | zero => simp [extract_result_url] at hex
        | succ n => simp [extract_result_url] at hex
    | bool b =>
      exfalso
      by_cases hv : (gen.model == "veo3" || gen.model == "veo3_fast") = true
      · rw [if_pos hv] at hex; simp [extract_veo_result_url] at hex
      · rw [if_neg hv] at hex
        cases fuel with
        | zero => simp [extract_result_url] at hex
        | succ n => simp [extract_result_url] at hex
    | num m =>
      exfalso
      by_cases hv : (gen.model == "veo3" || gen.model == "veo3_fast") = true
      · rw [if_pos hv] at hex; simp [extract_veo_result_url] at hex
      · rw [if_neg hv] at hex
        cases fuel with
        | zero => simp [extract_result_url] at hex
        | succ n => simp [extract_result_url] at hex
    | str s =>
      exfalso
      by_cases hv : (gen.model == "veo3" || gen.model == "veo3_fast") = true
      · rw [if_pos hv] at hex; simp [extract_veo_result_url] at hex
      · rw [if_neg hv] at hex
        cases fuel with
        | zero => simp [extract_result_url] at hex
        | succ n => simp [extract_result_url] at hex
    | arr xs =>
      exfalso
      by_cases hv : (gen.model == "veo3" || gen.model == "veo3_fast") = true
      · rw [if_pos hv] at hex; simp [extract_veo_result_url] at hex
      · rw [if_neg hv] at hex
        cases fuel with
        | zero => simp [extract_result_url] at hex
        | succ n => simp [extract_result_url] at hex
  obtain ⟨dfs, hd⟩ := hdata
  refine ⟨{ (if (pyOr ((Json.obj dfs).getd "status") (data.getd "status")).truthy then
        { gen with status := pyLower (pyStr (pyOr ((Json.obj dfs).getd "status")
            (data.getd "status"))) }
      else gen) with result_url := some u, status := "done" }, ?_, ?_, ?_⟩
  · simp only [poll_generation, if_neg htask, hobj, Bool.not_true, Bool.false_eq_true,
      if_false, hd, pyGet, hex, ne_eq, hne, not_false_eq_true, if_true]
  · rfl
  · rfl

/-- C7: with the derived data and response wrappers fixed, the fallback
chain of extract_result_url is evaluated in source order — the images probe
first, then the flat keys, then the resultUrls array — and a hit at any
stage returns before the later stages, in particular before any recursion
into resultJson, whatever that field holds. -/
theorem c7_result_urls_before_result_json
    (loads : String → Except Unit Json) (fuel : Nat) (record : Json)
    (dfs rfs : List (String × Json))
    (hd : pyOr (record.getd "data") (.obj []) = .obj dfs)
    (hr : pyOr ((Json.obj dfs).getd "response") (Json.obj dfs) = .obj rfs)
    (hrec : record.isObjB = true) :
    (∀ u, probeImages (Json.obj rfs) (Json.obj dfs) = some u →
      extract_result_url loads (fuel + 1) record = .ok (some u)) ∧
    (∀ u, probeImages (Json.obj rfs) (Json.obj dfs) = none →
      probeFlat (Json.obj rfs) (Json.obj dfs) record = some u →
      extract_result_url loads (fuel + 1) record = .ok (some u)) ∧
    (∀ u, probeImages (Json.obj rfs) (Json.obj dfs) = none →
      probeFlat (Json.obj rfs) (Json.obj dfs) record = none →
      probeResultUrls (Json.obj rfs) (Json.obj dfs) record = some u →
      extract_result_url loads (fuel + 1) record = .ok (some u)) := by
  cases record with
  | obj rfields =>
    refine ⟨fun u h1 => ?_, fun u h1 h2 => ?_, fun u h1 h2 h3 => ?_⟩
    · simp only [extract_result_url, hd, hr, h1]
    · simp only [extract_result_url, hd, hr, h1, h2]
    · simp only [extract_result_url, hd, hr, h1, h2, h3]
  | null => simp [Json.isObjB] at hrec
  | bool b => simp [Json.isObjB] at hrec
  | num n => simp [Json.isObjB] at hrec
  | str s => simp [Json.isObjB] at hrec
  | arr xs => simp [Json.isObjB] at hrec

/-- C7 witness record: resultUrls and resultJson both present, the
resultJson parse (loads_other) would yield a different URL. -/
def c7rec : Json :=
  .obj [("data", .obj [("resultUrls", .arr [.str "http://a"]),
    ("resultJson", .str "x")])]

/-- C7 witness: on a record carrying both a resultUrls array and a
resultJson whose parse holds the different URL http://b, the array element
wins. -/
theorem c7_witness :
    extract_result_url loads_other 2 c7rec = .ok (some "http://a") :=
  (c7_result_urls_before_result_json loads_other 1 c7rec
      [("resultUrls", Json.arr [Json.str "http://a"]), ("resultJson", Json.str "x")]
      [("resultUrls", Json.arr [Json.str "http://a"]), ("resultJson", Json.str "x")]
      rfl rfl rfl).2.2 "http://a" rfl rfl rfl

/-- C10: adapting google/nano-banana-edit with zero references yields the
create variant google/nano-banana and an input without an image_urls field;
with at least one reference it yields google/nano-banana-edit with the
references capped at 10 and mode edit — the model field differs exactly
this way. -/
theorem c10_nano_banana_variant_switch (prompt : String)
    (aspect_ratio resolution : Option String) (output_format : String)
    (quality mode : Option String) (urls : List String) :
    (urls = [] →
      build_payload_for_model "google/nano-banana-edit" prompt aspect_ratio
          resolution output_format quality mode urls
        = .ok (.obj [("model", .str "google/nano-banana"),
            ("input", .obj [("prompt", .str (pyTake prompt 5000)),
              ("output_format", .str "png"),
              ("image_size", .str (market_image_size aspect_ratio))])], false))
    ∧ (urls ≠ [] →
      build_payload_for_model "google/nano-banana-edit" prompt aspect_ratio
          resolution output_format quality mode urls
        = .ok (.obj [("model", .str "google/nano-banana-edit"),
            ("input", .obj [("prompt", .str (pyTake prompt 5000)),
              ("output_format", .str "png"),
              ("image_size", .str (market_image_size aspect_ratio)),
              ("image_urls", .arr ((urls.take 10).map Json.str)),
              ("mode", .str "edit")])], false)) := by
  constructor
  · intro h; subst h; rfl
  · intro h
    cases urls with
    | nil => exact absurd rfl h
    | cons x xs => rfl

/-- C10 witness: the two variants at a concrete prompt, with zero and with
one image reference. -/
theorem c10_witness :
    build_payload_for_model "google/nano-banana-edit" "p" none none "png" none none []
      = .ok (.obj [("model", .str "google/nano-banana"),
          ("input", .obj [("prompt", .str "p"), ("output_format", .str "png"),
            ("image_size", .str "auto")])], false)
    ∧ build_payload_for_model "google/nano-banana-edit" "p" none none "png" none none
        ["http://i"]
      = .ok (.obj [("model", .str "google/nano-banana-edit"),
          ("input", .obj [("prompt", .str "p"), ("output_format", .str "png"),
            ("image_size", .str "auto"),
            ("image_urls", .arr [.str "http://i"]), ("mode", .str "edit")])], false) :=
  ⟨(c10_nano_banana_variant_switch "p" none none "png" none none []).1 rfl,
   (c10_nano_banana_variant_switch "p" none none "png" none none ["http://i"]).2
     (by decide)⟩

/-- A done generation holding a provider task id and an old result URL. -/
def genDone : Generation :=
  { tgid := 1, template_id := none, model := "m", aspect_ratio := none,
    resolution := none, output_format := none, prompt := "p", status := "done",
    kie_task_id := some "t", result_url := some "http://old" }

/-- A poll response whose provider status is processing and which carries no
result URL. -/
def dataStale : Json := .obj [("data", .obj [("status", .str "processing")])]

/-- C9 counterexample: polling the already-done generation genDone against a
provider response reporting processing rewrites its status to processing —
a transition out of a terminal state. -/
theorem c9_counterexample_done_rewritten :
    poll_generation loads_none 2 (some genDone) dataStale
      = .ok { genDone with status := "processing" } := rfl

/-- C9 amended: a generation without a provider task id (the sent_to_n8n
terminal state) is rejected by poll with HTTP 400 and never changed; but a
generation holding a task id is not protected in a terminal state — each
poll overwrites its status with the truthy provider-reported status,
lowercased, whenever the extractor finds no URL. -/
theorem c9_poll_terminal_behavior :
    (∀ (loads : String → Except Unit Json) (fuel : Nat) (gen : Generation)
      (data : Json),
      (gen.kie_task_id.getD "") = "" →
      poll_generation loads fuel (some gen) data = .error (.http 400)) ∧
    (∀ (loads : String → Except Unit Json) (fuel : Nat) (gen : Generation)
      (data : Json) (s : String) (dfs : List (String × Json)),
      (gen.kie_task_id.getD "") ≠ "" →
      data.isObjB = true →
      pyOr (data.getd "data") (.obj []) = .obj dfs →
      pyOr ((Json.obj dfs).getd "status") (data.getd "status") = .str s →
      s ≠ "" →
      (if gen.model == "veo3" || gen.model == "veo3_fast" then
        extract_veo_result_url loads data
      else extract_result_url loads fuel data) = .ok none →
      poll_generation loads fuel (some gen) data
        = .ok { gen with status := pyLower s }) := by
  constructor
  · intro loads fuel gen data h
    simp [poll_generation, h]
  · intro loads fuel gen data s dfs ht hobj hd hs hne hex
    simp only [poll_generation, if_neg ht, hobj, Bool.not_true, Bool.false_eq_true,
      if_false, hd, pyGet, hs, Json.truthy, bne_iff_ne, ne_eq, hne,
      not_false_eq_true, if_true, pyStr, hex]

/-- A sent_to_n8n generation: no provider task id. -/
def genN8n : Generation :=
  { tgid := 1, template_id := none, model := "m", aspect_ratio := none,
    resolution := none, output_format := none, prompt := "p",
    status := "sent_to_n8n", kie_task_id := none, result_url := none }

/-- C9 witness: the no-task-id poll is rejected, and the done generation is
rewritten to the provider-reported failed status. -/
theorem c9_witness :
    poll_generation loads_none 1 (some genN8n) (Json.obj []) = .error (.http 400) ∧
    poll_generation loads_none 2 (some genDone)
        (Json.obj [("data", Json.obj [("status", Json.str "failed")])])
      = .ok { genDone with status := "failed" } :=
  ⟨c9_poll_terminal_behavior.1 loads_none 1 genN8n (Json.obj []) rfl,
   c9_poll_terminal_behavior.2 loads_none 2 genDone
     (Json.obj [("data", Json.obj [("status", Json.str "failed")])]) "failed"
     [("status", Json.str "failed")]
     (by decide) rfl rfl rfl (by decide) rfl⟩

/-- A queued generation holding a provider task id. -/
def genQueued : Generation :=
  { tgid := 1, template_id := none, model := "m", aspect_ratio := none,
    resolution := none, output_format := none, prompt := "p",
    status := "queued", kie_task_id := some "t", result_url := none }

/-- A poll response whose own status field still says processing while a
result URL is already present. -/
def dataDoneUrl : Json :=
  .obj [("data", .obj [("status", .str "processing"),
    ("resultUrls", .arr [.str "http://r"])])]

/-- C8 witness: a provider response carrying the stale status processing
together with a result URL still drives the generation to done with that
URL. -/
theorem c8_witness :
    ∃ g, poll_generation loads_none 2 (some genQueued) dataDoneUrl = .ok g ∧
      g.status = "done" ∧ g.result_url = some "http://r" :=
  c8_url_forces_done loads_none 2 genQueued dataDoneUrl "http://r" (by decide) rfl

/-- An empty settings object: no n8n webhooks, no callback, no referral
webhook. -/
def stgNone : Settings :=
  { n8n_webhook_urls := none, kie_callback_url := none, ref_webhook_url := none }

/-- Setting a payment status leaves the users table unchanged. -/
theorem findUser_setPaymentStatus (st : DB) (pid : Nat) (s : String) (t : Int) :
    findUserByTgid (setPaymentStatus st pid s) t = findUserByTgid st t := rfl

/-- Whenever the owning user of a payment is found, the shared reconcile
block raises AttributeError at the referred_by access. -/
theorem reconcile_block_attr (st : DB) (stg : Settings) (p : Payment) (u : User)
    (hu : findUserByTgid st p.tgid = some u) :
    reconcile_block st stg p = .error .attributeError := by
  simp only [reconcile_block, findUser_setPaymentStatus, hu]
  rfl

/-- C2: the User model has no referred_by column, so every reconciliation
attempt that finds the payment and its owning user raises AttributeError at
the referral check: the webhook path rolls back and answers with the error
detail, the status-poll path swallows the exception and returns its
in-session succeeded status before its commit — in both cases the durable
state is exactly the input state, so neither path ever records the
pending-to-succeeded transition or the credit. -/
theorem c2_referral_attr_blocks_persistence (st : DB) (stg : Settings) :
    (∀ (yid : String) (p : Payment) (u : User),
      yid ≠ "" →
      findPaymentByYoo st yid = some p →
      p.status ≠ "succeeded" →
      findUserByTgid st p.tgid = some u →
      yookassa_webhook st stg (some "payment.succeeded") (some yid)
        = (.errorDetail "AttributeError", st)) ∧
    (∀ (pid : Nat) (caller : Int) (p : Payment) (u : User),
      findPaymentByIdAndTgid st pid caller = some p →
      p.status = "pending" →
      (p.yookassa_payment_id.getD "") ≠ "" →
      findUserByTgid st p.tgid = some u →
      get_payment_status st stg (some pid) caller true (.ok "succeeded")
        = (.info "succeeded" p.amount p.tokens, st)) := by
  constructor
  · intro yid p u hy hp hs hu
    have hrb := reconcile_block_attr st stg p u hu
    simp [yookassa_webhook, if_neg hy, hp, if_neg hs, hrb, pyErrStr]
  · intro pid caller p u hp hs hy hu
    have hrb := reconcile_block_attr st stg p u hu
    have hps : p.status ≠ "succeeded" := by
      rw [hs]; decide
    simp [get_payment_status, hp, hs, hy, hps, hrb]

/-- The state of the C1 evaluation: one user with balance 0 owning one
pending payment of 100 tokens. -/
def payC1 : Payment :=
  { pid := 1, tgid := 1, yookassa_payment_id := some "y1", amount := 100,
    tokens := 100, status := "pending" }

/-- The state of the C1 evaluation continued: its database. -/
def stC1 : DB :=
  { users := [{ tgid := 1, balance := 0 }], payments := [payC1],
    generations := [], templates := [] }

/-- C1 at its failing input: the webhook for the pending 100-token payment
aborts with AttributeError and rolls back, the subsequent status poll of
the same payment swallows the same error without committing — after both
reconciliation paths the owner balance is still 0 (credited zero times, not
once) and the payment is durably still pending. -/
theorem c1_double_reconcile_credits_nothing :
    yookassa_webhook stC1 stgNone (some "payment.succeeded") (some "y1")
      = (.errorDetail "AttributeError", stC1) ∧
    get_payment_status
        (yookassa_webhook stC1 stgNone (some "payment.succeeded") (some "y1")).2
        stgNone (some 1) 1 true (.ok "succeeded")
      = (.info "succeeded" 100 100, stC1) ∧
    (findUserByTgid stC1 1).map User.balance = some 0 ∧
    (findPaymentByYoo stC1 "y1").map Payment.status = some "pending" :=
  ⟨rfl, rfl, rfl, rfl⟩

/-- The state of the C3 evaluation: the payment owner (balance 0) and a
second user (balance 50) who would be the natural referrer. -/
def payC3 : Payment :=
  { pid := 7, tgid := 1, yookassa_payment_id := some "y3", amount := 100,
    tokens := 100, status := "pending" }

/-- The state of the C3 evaluation continued: its database. -/
def stC3 : DB :=
  { users := [{ tgid := 1, balance := 0 }, { tgid := 2, balance := 50 }],
    payments := [payC3], generations := [], templates := [] }

/-- C3 at its failing input: reconciling a pending 100-token payment aborts
at the referred_by access before any referral logic runs, so no balance —
neither the owner nor any would-be referrer — changes at all; in
particular no balance gains the 10-token bonus the claim requires. -/
theorem c3_referral_bonus_never_applied :
    yookassa_webhook stC3 stgNone (some "payment.succeeded") (some "y3")
      = (.errorDetail "AttributeError", stC3) ∧
    (yookassa_webhook stC3 stgNone (some "payment.succeeded") (some "y3")).2.users.map
        User.balance = [0, 50] :=
  ⟨rfl, rfl⟩

/-- C2 witness: the general theorem applied at the concrete C1 state. -/
theorem c2_witness :
    yookassa_webhook stC1 stgNone (some "payment.succeeded") (some "y1")
      = (.errorDetail "AttributeError", stC1) ∧
    get_payment_status stC1 stgNone (some 1) 1 true (.ok "succeeded")
      = (.info "succeeded" 100 100, stC1) :=
  ⟨(c2_referral_attr_blocks_persistence stC1 stgNone).1 "y1" payC1
      { tgid := 1, balance := 0 } (by decide) rfl (by decide) rfl,
   (c2_referral_attr_blocks_persistence stC1 stgNone).2 1 1 payC1
      { tgid := 1, balance := 0 } rfl rfl (by decide) rfl⟩

/-- C4 amended: with a balance of 4 against a model whose minimum-balance
requirement is 5, both generation endpoints fail the precheck with an
insufficient-funds response carrying required 5 and available 4, before any
upload, webhook or provider call, leaving the state (balances, generations)
unchanged — the result holds for every oracle, so no provider call can have
been consulted. -/
theorem c4_min_balance_insufficient :
    (∀ (st : DB) (stg : Settings) (caller : Int) (model prompt : String)
      (aspect_ratio resolution : Option String) (output_format : String)
      (quality : Option String) (urls : List String)
      (files : List (Except Unit String)) (wok : Nat → Bool)
      (tor : Except String String) (u : User),
      findUserByTgid st caller = some u →
      u.balance = 4 →
      get_min_balance_required model = 5 →
      generate_image st stg caller model prompt aspect_ratio resolution
          output_format quality none urls files wok tor
        = (.insufficient 5 4 model, st)) ∧
    (∀ (st : DB) (stg : Settings) (caller : Int) (model prompt : String)
      (aspect_ratio mode resolution duration sound : Option String)
      (urls fiu : List String) (files : List (Except Unit String))
      (wok : Nat → Bool) (tor : Except String String) (u : User),
      findUserByTgid st caller = some u →
      u.balance = 4 →
      get_min_balance_required model = 5 →
      (model == "bytedance/v1-pro-fast-image-to-video") = false →
      pyStartsWith model "sora-" = false →
      resolve_uploads urls files = .ok fiu →
      generate_video st stg caller model prompt aspect_ratio mode resolution
          duration sound urls files wok tor
        = (.insufficient 5 4 model, st)) := by
  have h1 : ((4 : Rat) != 0) = true := by decide
  have h2 : (4 : Rat) < 5 := by norm_num
  constructor
  · intro st stg caller model prompt ar res of q urls files wok tor u hu hb hm
    simp only [generate_image, hu, hm, hb, h1, eq_self_iff_true, if_true, if_pos h2]
  · intro st stg caller model prompt ar mode res dur snd urls fiu files wok tor u
      hu hb hm hv1 hsora hres
    simp only [generate_video, hu, hres, hv1, hsora, Bool.false_and,
      Bool.false_eq_true, if_false, video_required_balance, hm, hb, h1,
      eq_self_iff_true, if_true, if_pos h2]

/-- The C4 counterexample state: a user with balance 4. -/
def stC4 : DB :=
  { users := [{ tgid := 3, balance := 4 }], payments := [],
    generations := [], templates := [] }

/-- C4 counterexample: recraft/crisp-upscale is priced at 5 in the price
table, yet the submission of a balance-4 user fails with required 10, not
5, because the precheck reads the separate min-balance table whose default
is 10. -/
theorem c4_counterexample_crisp_upscale :
    get_generation_price "recraft/crisp-upscale" = 5 ∧
    generate_image stC4 stgNone 3 "recraft/crisp-upscale" "p" none none "png"
        none none [] [] (fun _ => true) (.ok "t")
      = (.insufficient 10 4 "recraft/crisp-upscale", stC4) ∧
    (10 : Rat) ≠ 5 :=
  ⟨rfl, rfl, by norm_num⟩

/-- The C4 witness state: a user with balance 4. -/
def stC4w : DB :=
  { users := [{ tgid := 5, balance := 4 }], payments := [],
    generations := [], templates := [] }

/-- C4 witness: for google/nano-banana-edit (both priced and thresholded at
5), a balance-4 user receives required 5, available 4 from both endpoints,
with the state unchanged. -/
theorem c4_witness :
    generate_image stC4w stgNone 5 "google/nano-banana-edit" "p" none none "png"
        none none [] [] (fun _ => true) (.ok "t")
      = (.insufficient 5 4 "google/nano-banana-edit", stC4w) ∧
    generate_video stC4w stgNone 5 "google/nano-banana-edit" "p" none none none
        none none [] [] (fun _ => true) (.ok "t")
      = (.insufficient 5 4 "google/nano-banana-edit", stC4w) :=
  ⟨c4_min_balance_insufficient.1 stC4w stgNone 5 "google/nano-banana-edit" "p"
      none none "png" none [] [] (fun _ => true) (.ok "t")
      { tgid := 5, balance := 4 } rfl rfl rfl,
   c4_min_balance_insufficient.2 stC4w stgNone 5 "google/nano-banana-edit" "p"
      none none none none none [] [] [] (fun _ => true) (.ok "t")
      { tgid := 5, balance := 4 } rfl rfl rfl (by decide) (by decide) rfl⟩

/-- C5: build_payload_for_model declares neither a duration nor a sound
parameter, so the keyword set the generate_video provider path passes is
rejected — the call raises TypeError before any submission; the
bytedance/v1-pro-fast-image-to-video branch of the function reads the
undefined name duration and can never return a payload; and every request
that reaches the provider path (user found, uploads resolved, guards and
balance check passed, no n8n webhook configured) ends in HTTP 500 with the
state unchanged — no Generation row is persisted and, the result being
independent of the task oracle, no task is ever submitted. -/
theorem c5_video_provider_path_type_error :
    ("duration" ∉ build_payload_for_model_params ∧
     "sound" ∉ build_payload_for_model_params ∧
     kwargsAccepted generate_video_build_call_args build_payload_for_model_params
       = false) ∧
    (∀ (prompt : String) (ar res : Option String) (of : String)
      (q m : Option String) (urls : List String),
      build_payload_for_model "bytedance/v1-pro-fast-image-to-video" prompt ar res
          of q m urls = .error .nameError) ∧
    (∀ (st : DB) (stg : Settings) (caller : Int) (model prompt : String)
      (ar mode res dur snd : Option String) (urls fiu : List String)
      (files : List (Except Unit String)) (wok : Nat → Bool)
      (tor : Except String String) (u : User) (req : Rat),
      parse_n8n_webhooks stg.n8n_webhook_urls = [] →
      findUserByTgid st caller = some u →
      resolve_uploads urls files = .ok fiu →
      ((model == "bytedance/v1-pro-fast-image-to-video") && fiu.length == 0)
        = false →
      video_required_balance model res dur
          (model == "bytedance/v1-pro-fast-image-to-video")
          (pyStartsWith model "sora-" && !(pyEndsWith model "storyboard"))
        = .ok req →
      ¬((if u.balance != 0 then u.balance else 0) < req) →
      generate_video st stg caller model prompt ar mode res dur snd urls files
          wok tor
        = (.httpErr 500, st)) := by
  have hkw : kwargsAccepted generate_video_build_call_args
      build_payload_for_model_params = false := by decide
  refine ⟨⟨by decide, by decide, hkw⟩, fun prompt ar res of q m urls => rfl, ?_⟩
  intro st stg caller model prompt ar mode res dur snd urls fiu files wok tor u
    req hn8n hu hres hguard hreq hbal
  simp only [generate_video, hu, hres, hguard, Bool.false_eq_true, if_false,
    hreq, if_neg hbal, hn8n, ne_eq, eq_self_iff_true, not_true_eq_false,
    hkw, Bool.not_false, if_true]

/-- The C5 witness state: a user with an ample balance. -/
def stC5 : DB :=
  { users := [{ tgid := 9, balance := 1000 }], payments := [],
    generations := [], templates := [] }

/-- C5 witness: a provider-path video request for google/nano-banana-edit
with no n8n webhook configured ends in HTTP 500 with the state unchanged,
and the v1-pro branch errors at a concrete direct call. -/
theorem c5_witness :
    generate_video stC5 stgNone 9 "google/nano-banana-edit" "p" none none none
        none none [] [] (fun _ => true) (.ok "t") = (.httpErr 500, stC5) ∧
    build_payload_for_model "bytedance/v1-pro-fast-image-to-video" "p" none none
        "mp4" none none [] = .error .nameError :=
  ⟨c5_video_provider_path_type_error.2.2 stC5 stgNone 9 "google/nano-banana-edit"
      "p" none none none none none [] [] [] (fun _ => true) (.ok "t")
      { tgid := 9, balance := 1000 } 5 rfl rfl rfl (by decide) rfl
      (by norm_num),
   c5_video_provider_path_type_error.2.1 "p" none none "mp4" none none []⟩

end II
